import Mathlib

/-!
# Verification of the Job-Autopilot agent decision loop

Shallow embedding of the core agent-loop components of the Job-Autopilot
repository, together with proofs of the specified properties.

Embedded source files:
* `autojobagent/core/outcome_classifier.py` — submission-outcome classification
* `autojobagent/core/loop_guard.py` — semantic loop-guard decision
* `autojobagent/core/vision_agent.py` — progression gate, page fingerprint,
  plan-cache replay guard, failure counters, submission-retry handling,
  completion verification and the main `BrowserAgent.run` loop
* `autojobagent/core/ui_snapshot.py` — the `SnapshotItem` descriptor

Python dictionaries of counters are modelled as total functions
`String → Int` (all reads in the source use `.get(key, 0)`, so an absent key
and a stored `0` are observationally identical).  Python strings are Lean
`String`s; `str.lower()` is modelled per character and the `in` operator as
substring containment on the character list.
-/

/-- Python's `str.lower()`: lower-case every character. -/
def py_lower (s : String) : String := String.mk (s.toList.map Char.toLower)

/-- Substring search on character lists (semantics of Python's `in` operator
on strings): the pattern occurs somewhere in the haystack. -/
def chars_contain_sub : List Char → List Char → Bool
  | [], pat => pat.isEmpty
  | h :: t, pat => pat.isPrefixOf (h :: t) || chars_contain_sub t pat

/-- Python's `pat in s` for strings. -/
def str_contains (s pat : String) : Bool := chars_contain_sub s.toList pat.toList

/-!
## outcome_classifier.py
-/

/-- The closed `Literal` tag set of `SubmissionOutcome.classification`. -/
inductive OutcomeClassification where
  | success_confirmed
  | validation_error
  | external_blocked
  | transient_network
  | unknown_blocked
deriving DecidableEq, Repr

/-- `outcome_classifier.SubmissionOutcome` (identical dataclass is re-declared
in `vision_agent.py`). -/
structure SubmissionOutcome where
  classification : OutcomeClassification
  reason_code : String
  evidence_snippet : String
deriving DecidableEq, Repr

/-- The `success_indicators` list of `looks_like_completion_text`
(`outcome_classifier.py` lines 38–47; the identical list appears in
`BrowserAgent._looks_like_completion_text`). -/
def success_indicators : List String :=
  [ "thank you for applying"
  , "thanks for your application"
  , "application submitted"
  , "application received"
  , "successfully submitted"
  , "your application has been submitted"
  , "application complete"
  , "thanks for submitting" ]

/-- `outcome_classifier.looks_like_completion_text`. -/
def looks_like_completion_text (lower_text : String) : Bool :=
  success_indicators.any (fun token => str_contains lower_text token)

/-- Anti-spam / risk keywords checked by `classify_submission_outcome`. -/
def external_blocked_keywords : List String :=
  [ "flagged as possible spam"
  , "suspicious activity"
  , "anti-spam"
  , "risk"
  , "rate limit"
  , "too many requests"
  , "try again later" ]

/-- Network / server transient keywords checked by
`classify_submission_outcome`. -/
def transient_network_keywords : List String :=
  [ "network error"
  , "temporarily unavailable"
  , "timeout"
  , "timed out"
  , "connection error"
  , "server error"
  , "5xx" ]

/-- `outcome_classifier.classify_submission_outcome` (lines 125–191).  The
method `BrowserAgent._classify_submission_outcome` implements the same
decision chain, with `evidence_text` read from the page and
`progression_block_reason` / `…_snippets` taken from the agent fields.
`progression_block_reason` is falsy in Python both for `None` and for the
empty string, hence the `getD "" ≠ ""` test. -/
def classify_submission_outcome (evidence_text : String) (action_success : Bool)
    (progression_block_reason : Option String)
    (progression_block_snippets : List String) : SubmissionOutcome :=
  let lower := py_lower evidence_text
  if looks_like_completion_text lower then
    { classification := .success_confirmed
      reason_code := "completion_detected"
      evidence_snippet := evidence_text.take 220 }
  else if external_blocked_keywords.any (fun k => str_contains lower k) then
    { classification := .external_blocked
      reason_code := "anti_spam_or_risk_blocked"
      evidence_snippet := evidence_text.take 220 }
  else if transient_network_keywords.any (fun k => str_contains lower k) then
    { classification := .transient_network
      reason_code := "network_or_server_transient"
      evidence_snippet := evidence_text.take 220 }
  else if (progression_block_reason.getD "") ≠ "" then
    let snippets := String.intercalate " | " (progression_block_snippets.take 2)
    let snippet := if snippets = "" then progression_block_reason.getD "" else snippets
    { classification := .validation_error
      reason_code := "missing_required_field"
      evidence_snippet := snippet.take 220 }
  else if action_success then
    { classification := .unknown_blocked
      reason_code := "submit_clicked_without_confirmed_transition"
      evidence_snippet := evidence_text.take 220 }
  else
    { classification := .unknown_blocked
      reason_code := "submit_action_failed"
      evidence_snippet := evidence_text.take 220 }

/-!
## loop_guard.py
-/

/-- `loop_guard.semantic_loop_guard_decision` (lines 24–31). -/
def semantic_loop_guard_decision (fail_count : Int) : String :=
  if fail_count = 1 then "replan"
  else if fail_count = 2 then "alternate"
  else if fail_count ≥ 3 then "stop"
  else "none"

/-- The decision mapping of `BrowserAgent._semantic_loop_guard_decision`
(`vision_agent.py` lines 3117–3149): an empty semantic key yields `"none"`,
otherwise the per-key fail count is mapped exactly as in
`loop_guard.semantic_loop_guard_decision` (the method additionally writes a
step log, which has no effect on the decision). -/
def browser_semantic_loop_guard_decision (key : String) (fail_count : Int) : String :=
  if key = "" then "none"
  else if fail_count = 1 then "replan"
  else if fail_count = 2 then "alternate"
  else if fail_count ≥ 3 then "stop"
  else "none"

/-!
## vision_agent.py — the progression gate (`evaluate_progression_block_reason`)

The Python function receives a mutable evidence dictionary and annotates it
(`gate_decision`, `allowed_by`, `blocked_by`, `allowed_by_file_upload_state`)
while returning the optional block reason.  The dictionary is modelled as the
structure `ProgressionEvidence`; the function returns the updated structure
together with the result.
-/

/-- An entry of `evidence["submit_candidates"]` as read by the gate (other
keys of the dictionaries are not consulted; non-dict entries are skipped by
the source and correspond to omitting them from the list). -/
structure SubmitCandidate where
  text : String
  type : String
  disabled : Bool
  aria_disabled : String
deriving DecidableEq, Repr

/-- An entry of `evidence["invalid_field_samples"]` /
`evidence["required_empty_samples"]` — only the `type` key is consulted. -/
structure FieldSample where
  type : String
deriving DecidableEq, Repr

/-- An entry of `evidence["file_upload_state_samples"]` — only the
`has_replace_text` and `has_uploaded_file_name` keys are consulted. -/
structure UploadStateSample where
  has_replace_text : Bool
  has_uploaded_file_name : Bool
deriving DecidableEq, Repr

/-- The evidence dictionary of `evaluate_progression_block_reason`
(`vision_agent.py` lines 115–220).  The first six fields are the counters
read with `int(evidence.get(…, 0) or 0)`; the last four fields are the keys
the function writes. -/
structure ProgressionEvidence where
  invalid_field_count : Int
  required_empty_count : Int
  red_error_hits : Int
  error_container_hits : Int
  local_error_keyword_hits : Int
  global_error_keyword_hits : Int
  submit_candidates : List SubmitCandidate
  invalid_field_samples : List FieldSample
  file_upload_state_samples : List UploadStateSample
  required_empty_samples : List FieldSample
  gate_decision : Option String := none
  allowed_by : Option String := none
  blocked_by : Option String := none
  allowed_by_file_upload_state : Bool := false
deriving DecidableEq, Repr

/-- The `has_enabled_submit` loop of the gate (lines 128–144): some
submit-like candidate ("submit"/"apply" in its lower-cased text, or type
"submit") is neither `disabled` nor `aria-disabled`. -/
def gate_has_enabled_submit (evidence : ProgressionEvidence) : Bool :=
  evidence.submit_candidates.any (fun item =>
    let text := py_lower item.text
    let item_type := py_lower item.type
    let is_submit_like :=
      str_contains text "submit" || str_contains text "apply" || item_type == "submit"
    is_submit_like && !item.disabled
      && !(py_lower item.aria_disabled == "true" || py_lower item.aria_disabled == "1"))

/-- `all_invalid_are_file` (lines 150–154): the sample list is non-empty and
every sample has (lower-cased) type "file". -/
def gate_all_invalid_are_file (evidence : ProgressionEvidence) : Bool :=
  !evidence.invalid_field_samples.isEmpty
    && evidence.invalid_field_samples.all (fun it => py_lower it.type == "file")

/-- `all_required_empty_are_file` (lines 155–159). -/
def gate_all_required_empty_are_file (evidence : ProgressionEvidence) : Bool :=
  !evidence.required_empty_samples.isEmpty
    && evidence.required_empty_samples.all (fun it => py_lower it.type == "file")

/-- `has_upload_ready_signal` (lines 160–169): some file-upload state sample
carries a replace text or an uploaded file name. -/
def gate_has_upload_ready_signal (evidence : ProgressionEvidence) : Bool :=
  evidence.file_upload_state_samples.any
    (fun sample => sample.has_replace_text || sample.has_uploaded_file_name)

/-- The compound condition of the file-input allow branch (lines 173–181):
every invalid field is a file input, an upload-ready signal and an enabled
submit control exist, any required-empty fields are all file inputs, and no
container / red-text / local-keyword error evidence exists. -/
def gate_file_allow_condition (evidence : ProgressionEvidence) : Bool :=
  gate_all_invalid_are_file evidence
    && gate_has_upload_ready_signal evidence
    && gate_has_enabled_submit evidence
    && (decide (evidence.required_empty_count ≤ 0)
        || gate_all_required_empty_are_file evidence)
    && decide (evidence.error_container_hits ≤ 0)
    && decide (evidence.red_error_hits ≤ 0)
    && decide (evidence.local_error_keyword_hits ≤ 0)

/-- The compound condition of the isolated-`:invalid` allow branch
(lines 187–194): the invalid signal is not a pure file-input one, there is no
other error evidence, and an enabled submit control exists. -/
def gate_single_invalid_allow_condition (evidence : ProgressionEvidence) : Bool :=
  !gate_all_invalid_are_file evidence
    && decide (evidence.required_empty_count ≤ 0)
    && decide (evidence.error_container_hits ≤ 0)
    && decide (evidence.red_error_hits ≤ 0)
    && decide (evidence.local_error_keyword_hits ≤ 0)
    && gate_has_enabled_submit evidence

/-- `evaluate_progression_block_reason` (`vision_agent.py` lines 115–220):
returns the updated evidence (the source mutates the dictionary in place)
and the optional block reason. -/
def evaluate_progression_block_reason (evidence : ProgressionEvidence)
    (llm_confirms_context_error : Bool) : ProgressionEvidence × Option String :=
  if evidence.invalid_field_count > 0 then
    if gate_file_allow_condition evidence then
      ({ evidence with
          allowed_by_file_upload_state := true
          gate_decision := some "allow"
          allowed_by := some "file_only_invalid_with_upload_ready" }, none)
    else if gate_single_invalid_allow_condition evidence then
      ({ evidence with
          gate_decision := some "allow"
          allowed_by := some "single_invalid_without_other_errors" }, none)
    else
      ({ evidence with
          gate_decision := some "block"
          blocked_by := some "invalid_field_count" },
        some ("检测到 " ++ toString evidence.invalid_field_count
          ++ " 个无效字段（aria-invalid/:invalid）"))
  else if evidence.required_empty_count > 0 then
    ({ evidence with
        gate_decision := some "block"
        blocked_by := some "required_empty_count" },
      some ("检测到 " ++ toString evidence.required_empty_count ++ " 个必填字段为空"))
  else if evidence.error_container_hits > 0
      ∧ (evidence.red_error_hits > 0 ∨ evidence.local_error_keyword_hits > 0) then
    ({ evidence with
        gate_decision := some "block"
        blocked_by := some "error_container_with_visual_or_local_keyword" },
      some "检测到表单错误提示（错误容器/红色文本）")
  else if evidence.global_error_keyword_hits > 0 ∧ llm_confirms_context_error = true then
    ({ evidence with
        gate_decision := some "block"
        blocked_by := some "global_keyword_confirmed_by_llm" },
      some "检测到与当前表单相关的错误提示（经语义复核）")
  else
    ({ evidence with
        gate_decision := some "allow"
        allowed_by := some "no_blocking_evidence" }, none)

/-!
## ui_snapshot.py / vision_agent.py — data model
-/

/-- `ui_snapshot.SnapshotItem`: the typed element descriptor produced by
`build_ui_snapshot` for each visible interactive element. -/
structure SnapshotItem where
  ref : String
  role : String
  name : String
  nth : Int
  input_type : Option String := none
  tag : Option String := none
  required : Bool := false
  in_form : Bool := false
  in_assist_panel : Bool := false
  checked : Option Bool := none
  value_hint : String := ""
deriving DecidableEq, Repr

/-- `vision_agent.AgentAction`: a single planned browser operation. -/
structure AgentAction where
  action : String
  ref : Option String := none
  selector : Option String := none
  value : Option String := none
  target_question : Option String := none
  element_type : Option String := none
  reason : Option String := none
deriving DecidableEq, Repr

/-- The `Literal` status set of `vision_agent.AgentState`; the source value
"continue" is spelled `continue_status` because `continue` is reserved in
Lean. -/
inductive AgentStatus where
  | continue_status
  | done
  | stuck
  | error
deriving DecidableEq, Repr

/-- `vision_agent.AgentState`: the parsed planner response for one
observation cycle. -/
structure AgentState where
  status : AgentStatus
  summary : String
  next_action : Option AgentAction := none
  raw_response : Option String := none
  page_overview : Option String := none
  field_audit : Option String := none
  action_plan : Option (List String) := none
  risk_or_blocker : Option String := none
  page_fingerprint : Option String := none
deriving DecidableEq, Repr

/-- `BrowserAgent._action_fail_key` (lines 3071–3081): the exact per-action
counter key `fingerprint|action|ref|selector|value|targetQuestion`
(`None` components become the empty string, as with Python's `x or ""`). -/
def action_fail_key (page_fingerprint : String) (action : AgentAction) : String :=
  String.intercalate "|"
    [ page_fingerprint
    , action.action
    , action.ref.getD ""
    , action.selector.getD ""
    , action.value.getD ""
    , action.target_question.getD "" ]

/-!
## vision_agent.py — plan-cache replay guard (C9)

`BrowserAgent._observe_and_think` lines 795–865.  The snapshot map is the
ref-indexed dictionary of the current observation; the two counter
dictionaries are modelled as total functions with default 0 (all source
reads are `.get(key, 0)`).
-/

/-- The toggle guard of the cache-replay check (lines 801–809): a cached
click on a ref whose current snapshot target has role checkbox / radio /
switch, or carries a `checked`/pressed state, must never be replayed.
Python tests `_ca.ref` for truthiness, so an empty-string ref also skips the
guard. -/
def is_toggle_replay (cached_action : AgentAction)
    (snapshot_map : String → Option SnapshotItem) : Bool :=
  if cached_action.action = "click" ∧ cached_action.ref.getD "" ≠ "" then
    match snapshot_map (cached_action.ref.getD "") with
    | some target =>
        (target.role = "checkbox" ∨ target.role = "radio" ∨ target.role = "switch" : Bool)
          || target.checked.isSome
    | none => false
  else false

/-- The cache-replay decision of `_observe_and_think` (lines 795–843): a
cached state for the current fingerprint is replayed (no new model call)
exactly when it is a `continue` state with a next action, the action is not
a toggle replay, the exact action key has zero recorded failures, and the
cached action has been replayed less than once before.  When the decision is
`false` the source falls through to building a prompt and calling the
planner. -/
def cache_replay_accepted (cached_state : Option AgentState)
    (snapshot_map : String → Option SnapshotItem)
    (action_fail_counts action_cache_use_counts : String → Int)
    (page_fingerprint : String) : Bool :=
  match cached_state with
  | none => false
  | some st =>
    match st.next_action with
    | none => false
    | some ca =>
      decide (st.status = AgentStatus.continue_status)
        && !(is_toggle_replay ca snapshot_map)
        && decide (action_fail_counts (action_fail_key page_fingerprint ca) = 0)
        && decide (action_cache_use_counts (action_fail_key page_fingerprint ca) < 1)

/-- Pointwise update of a counter dictionary (Python `d[k] = v`). -/
def update_count (f : String → Int) (k : String) (v : Int) : String → Int :=
  fun k' => if k' = k then v else f k'

/-- The bookkeeping performed when a cache replay is accepted
(lines 841–843): the use count of the action key is incremented. -/
def cache_replay_use_increment (action_cache_use_counts : String → Int)
    (page_fingerprint : String) (ca : AgentAction) : String → Int :=
  update_count action_cache_use_counts (action_fail_key page_fingerprint ca)
    (action_cache_use_counts (action_fail_key page_fingerprint ca) + 1)

/-!
## vision_agent.py — session counters, `_record_action_result`, `_do_refresh`

The counter dictionaries and refresh bookkeeping of `BrowserAgent.__init__`
(lines 288–310).  `_do_refresh` additionally clears the plan cache
(`_state_cache_by_fingerprint`), the error-gate cache and the last observed
fingerprint; page reloading, waiting and logging are browser I/O and are
represented by the `reload_ok` input.
-/

/-- The source constant `self.max_refresh_attempts = 2` (line 289). -/
def max_refresh_attempts : Int := 2

/-- The source constant `self._submission_retry_limit = 3` (line 309). -/
def submission_retry_limit : Int := 3

/-- The session-scoped mutable counters and caches touched by
`_record_action_result`, `_handle_submission_outcome` and `_do_refresh`. -/
structure LoopCounterState where
  state_cache_by_fingerprint : String → Option AgentState
  action_fail_counts : String → Int
  action_cache_use_counts : String → Int
  repeated_skip_counts : String → Int
  semantic_fail_counts : String → Int
  submission_retry_counts : String → Int
  error_gate_cache : String → Option Bool
  last_observed_fingerprint : String
  refresh_attempts : Int
  refresh_exhausted : Bool

/-- `BrowserAgent._record_action_result` (lines 3173–3188).  The action key
is `_action_fail_key(page_fingerprint, action)`; the semantic key is
computed by `_semantic_action_key` from the live page URL and the action's
inferred intent and is passed in here as a parameter. -/
def record_action_result (st : LoopCounterState) (page_fingerprint : String)
    (action : AgentAction) (semantic_key : String) (success : Bool) :
    LoopCounterState :=
  let key := action_fail_key page_fingerprint action
  if success then
    { st with
        action_fail_counts := update_count st.action_fail_counts key 0
        repeated_skip_counts := update_count st.repeated_skip_counts key 0
        semantic_fail_counts :=
          if semantic_key ≠ "" then
            update_count st.semantic_fail_counts semantic_key 0
          else st.semantic_fail_counts }
  else
    { st with
        action_fail_counts :=
          update_count st.action_fail_counts key (st.action_fail_counts key + 1)
        semantic_fail_counts :=
          if semantic_key ≠ "" then
            update_count st.semantic_fail_counts semantic_key
              (st.semantic_fail_counts semantic_key + 1)
          else st.semantic_fail_counts }

/-- `BrowserAgent._do_refresh` (lines 3622–3662): at the attempt cap the
refresh is refused and marked exhausted; otherwise, if the page reload
succeeds, the attempt counter is incremented and the plan cache, the four
loop-counter dictionaries and the error-gate cache are cleared
(`_submission_retry_counts` is not among them); if the reload raises, only
the attempt counter and the exhaustion flag are updated. -/
def do_refresh (st : LoopCounterState) (reload_ok : Bool) :
    LoopCounterState × Bool :=
  if st.refresh_attempts ≥ max_refresh_attempts then
    ({ st with refresh_exhausted := true }, false)
  else if reload_ok then
    ({ st with
        refresh_attempts := st.refresh_attempts + 1
        state_cache_by_fingerprint := fun _ => none
        action_fail_counts := fun _ => 0
        action_cache_use_counts := fun _ => 0
        repeated_skip_counts := fun _ => 0
        semantic_fail_counts := fun _ => 0
        error_gate_cache := fun _ => none
        last_observed_fingerprint := "" }, true)
  else
    ({ st with
        refresh_attempts := st.refresh_attempts + 1
        refresh_exhausted :=
          if st.refresh_attempts + 1 ≥ max_refresh_attempts then true
          else st.refresh_exhausted }, false)

/-- A concrete counter state in which one submission-retry counter is 2 and
a successful fresh refresh is available. -/
def pending_retry_counter_state : LoopCounterState :=
  { state_cache_by_fingerprint := fun _ => none
    action_fail_counts := fun _ => 0
    action_cache_use_counts := fun _ => 0
    repeated_skip_counts := fun _ => 0
    semantic_fail_counts := fun _ => 0
    submission_retry_counts :=
      fun k => if k = "boards.example.test/company|progression::submit_apply" then 2 else 0
    error_gate_cache := fun _ => none
    last_observed_fingerprint := "fp1"
    refresh_attempts := 0
    refresh_exhausted := false }

/-!
## vision_agent.py — `_handle_submission_outcome` (lines 2820–2888)

The method first classifies the outcome via
`_classify_submission_outcome` (same decision chain as
`classify_submission_outcome`, with the page text and the open gate state as
inputs), then branches on the classification.  Step logging,
`_sync_failure_hints` time-stamping and the humanized pacing
(`_apply_humanized_retry_pacing`: randomized wait, scroll jiggle,
tab/shift-tab — pure page I/O) do not affect the returned pair; the pacing
invocation is recorded by the `pacing_applied` flag.
-/

/-- The retry key of the external-blocked / transient branch (line 2865):
`self._semantic_action_key("", action) or "progression::submit_apply"`. -/
def normalized_submission_retry_key (semantic_key : String) : String :=
  if semantic_key = "" then "progression::submit_apply" else semantic_key

/-- The submission-related mutable agent fields read and written by
`_handle_submission_outcome`. -/
structure SubmissionHandlerState where
  submission_retry_counts : String → Int
  last_validation_signature : String
  validation_repeat_count : Int
  retry_count_hint : Int
  last_submission_outcome : Option SubmissionOutcome := none

/-- The result of one `_handle_submission_outcome` call: the returned
`(success, should_stop)` pair, whether `_apply_humanized_retry_pacing` was
invoked, and the updated state. -/
structure SubmissionHandleResult where
  success : Bool
  should_stop : Bool
  pacing_applied : Bool
  state : SubmissionHandlerState

/-- `BrowserAgent._handle_submission_outcome`.  `semantic_key` is the value
of `self._semantic_action_key("", action)` (empty when the action has no
normalized intent); the source substitutes `"progression::submit_apply"`
for an empty key. -/
def handle_submission_outcome (st : SubmissionHandlerState)
    (evidence_text : String) (action_success : Bool)
    (progression_block_reason : Option String)
    (progression_block_snippets : List String)
    (semantic_key : String) : SubmissionHandleResult :=
  let outcome := classify_submission_outcome evidence_text action_success
    progression_block_reason progression_block_snippets
  let st := { st with last_submission_outcome := some outcome }
  match outcome.classification with
  | .success_confirmed =>
      -- `_sync_failure_hints` resets the retry hint on confirmed success
      { success := true, should_stop := false, pacing_applied := false
        state := { st with retry_count_hint := 0 } }
  | .validation_error =>
      let signature :=
        outcome.reason_code ++ "|" ++ py_lower outcome.evidence_snippet.trim
      let st :=
        if signature ≠ "" ∧ signature = st.last_validation_signature then
          { st with validation_repeat_count := st.validation_repeat_count + 1 }
        else
          { st with validation_repeat_count := 1
                    last_validation_signature := signature }
      { success := false, should_stop := false, pacing_applied := false, state := st }
  | .external_blocked | .transient_network =>
      let key := normalized_submission_retry_key semantic_key
      let retry_count := st.submission_retry_counts key + 1
      let st :=
        { st with
            submission_retry_counts :=
              update_count st.submission_retry_counts key retry_count
            retry_count_hint := retry_count }
      if retry_count ≥ submission_retry_limit then
        { success := false, should_stop := true, pacing_applied := false, state := st }
      else
        { success := false, should_stop := false, pacing_applied := true, state := st }
  | .unknown_blocked =>
      { success := false, should_stop := false, pacing_applied := false, state := st }

/-!
## vision_agent.py — `_verify_completion` (lines 3677–3794) and the main
`BrowserAgent.run` loop (lines 340–593)

`_verify_completion` reads the page body text and probes the page for
visible submit controls; the body text and the combined probe result are the
two inputs of the model.  The extension-false-positive scan of the source
(lines 3712–3724) only writes a log line and contributes nothing to the
decision.
-/

/-- The `success_indicators` list of `_verify_completion` (lines 3694–3706;
a superset of the classifier list). -/
def verification_success_indicators : List String :=
  [ "thank you for applying"
  , "thanks for your application"
  , "application submitted"
  , "application received"
  , "successfully submitted"
  , "we have received your application"
  , "your application has been submitted"
  , "application complete"
  , "thanks for submitting"
  , "we'll be in touch"
  , "we will review your application" ]

/-- The `error_indicators` list of `_verify_completion` (lines 3727–3734). -/
def verification_error_indicators : List String :=
  [ "this field is required"
  , "please fill"
  , "is required"
  , "missing required"
  , "please complete"
  , "invalid" ]

/-- The `has_success` local of `_verify_completion` (lines 3708–3710). -/
def verification_has_success (body_text : String) : Bool :=
  verification_success_indicators.any
    (fun indicator => str_contains (py_lower body_text) indicator)

/-- The `has_error` local of `_verify_completion` (lines 3736–3740). -/
def verification_has_error (body_text : String) : Bool :=
  verification_error_indicators.any
    (fun indicator => str_contains (py_lower body_text) indicator)

/-- `BrowserAgent._verify_completion`: `body_text` is
`page.inner_text("body")` (lowered inside), `has_submit_button` is the
combined result of the role / text visibility probes (lines 3742–3771).
Returns `(is_really_done, verification_message)`. -/
def verify_completion (body_text : String) (has_submit_button : Bool) :
    Bool × String :=
  if has_submit_button && !(verification_has_success body_text) then
    (false, "Submit 按钮仍可见，表单尚未提交")
  else if verification_has_error body_text then
    (false, "页面仍有错误提示，表单未完成")
  else if verification_has_success body_text && !(verification_has_error body_text) then
    (true, "页面显示申请成功信息，无错误提示")
  else if !(verification_has_success body_text) && !has_submit_button then
    (false, "未检测到明确的成功信息，可能需要继续")
  else
    (false, "状态不确定，继续执行")

/-- The net effect of the action-dispatch block of one `run` iteration
(lines 400–588): every path in that block either continues the loop
(`continue`, falling through to the next step, or a recovered refresh) or
returns `False` (semantic stop, skip exhaustion, submission stop, refresh
exhaustion, consecutive-failure ceiling).  No path in the block returns
`True`. -/
inductive ActionPhaseOutcome where
  | loop_again
  | stop_failure
deriving DecidableEq, Repr

/-- The environment inputs consumed by one iteration of `BrowserAgent.run`:
the `AgentState` produced by `_observe_and_think`, the page body text and
submit-control probe used by `_verify_completion` at this step, and the net
effect of the action-dispatch block. -/
structure RunCycle where
  state : AgentState
  body_text : String
  submit_visible : Bool
  action_phase : ActionPhaseOutcome
deriving DecidableEq, Repr

/-- The `while self.step_count < self.max_steps` loop of `BrowserAgent.run`
(lines 351–593), with one `RunCycle` of environment inputs per iteration
(the list length plays the role of the remaining step budget; an exhausted
budget returns `False`, line 590).  Status dispatch follows the source:
`error` → continue (line 358); `done` → `True` in pre-navigation mode,
otherwise `True` only if `_verify_completion` confirms, else continue
(lines 374–392); `stuck` → `False` (line 394); otherwise the action block
runs when a next action exists (no path of it returns `True`), and a
missing next action just logs and continues. -/
def run_agent_loop (pre_nav_only : Bool) : List RunCycle → Bool
  | [] => false
  | c :: rest =>
    match c.state.status with
    | .error => run_agent_loop pre_nav_only rest
    | .done =>
      if pre_nav_only then true
      else if (verify_completion c.body_text c.submit_visible).1 then true
      else run_agent_loop pre_nav_only rest
    | .stuck => false
    | .continue_status =>
      match c.state.next_action with
      | some _ =>
        match c.action_phase with
        | .stop_failure => false
        | .loop_again => run_agent_loop pre_nav_only rest
      | none => run_agent_loop pre_nav_only rest

/-- The cycle of the C1 counterexample: the planner reports `done` on a page
whose body shows a success banner while a Submit control is still visible. -/
def visible_submit_done_cycle : RunCycle :=
  { state := { status := AgentStatus.done, summary := "申请已提交" }
    body_text := "Application submitted. You can review your answers below."
    submit_visible := true
    action_phase := ActionPhaseOutcome.loop_again }

/-!
## vision_agent.py — `_build_page_fingerprint` (lines 2949–3069)

The source sorts the snapshot map's values by `ref`, takes the first 40,
projects each item to a small entry dictionary, serializes
`{"url": url-without-fragment, "items": [...]}` with
`json.dumps(..., ensure_ascii=False, sort_keys=True)` and returns the SHA-1
hex digest of the UTF-8 encoding.  The digest pipeline (JSON serialization,
UTF-8, SHA-1) is reproduced below so that the fingerprint function is total
and executable; the debug-log regions of the source have no effect on the
result.
-/

/-- The entry dictionary built for one snapshot item (lines 3009–3020):
`r`/`n`/`t`/`req` always, `chk` only when `checked is not None`, `vh` only
when `value_hint` is truthy (non-empty). -/
structure FingerprintEntry where
  r : String
  n : String
  t : String
  req : Bool
  chk : Option Bool
  vh : Option String
deriving DecidableEq, Repr

/-- Projection of a `SnapshotItem` to its fingerprint entry. -/
def fingerprint_entry_of_item (item : SnapshotItem) : FingerprintEntry :=
  { r := item.role
    n := item.name.take 60
    t := item.input_type.getD ""
    req := item.required
    chk := item.checked
    vh := if item.value_hint = "" then none else some item.value_hint }

/-- `sorted(snapshot_map.values(), key=lambda x: x.ref)` (line 2954);
Python's `sorted` and `List.mergeSort` are both stable. -/
def sort_items_by_ref (items : List SnapshotItem) : List SnapshotItem :=
  items.mergeSort (fun a b => a.ref ≤ b.ref)

/-- `(current_url or "").split("#")[0]` (line 3046): the URL up to the first
fragment marker. -/
def strip_url_fragment (url : String) : String :=
  String.mk (url.toList.takeWhile (fun c => c ≠ '#'))

/-- The structured payload serialized by `_build_page_fingerprint`
(line 3046): the fragment-stripped URL and the entries of the first 40
ref-sorted items. -/
def fingerprint_payload (current_url : String) (items : List SnapshotItem) :
    String × List FingerprintEntry :=
  (strip_url_fragment current_url,
    ((sort_items_by_ref items).take 40).map fingerprint_entry_of_item)

/-- Hex digit characters (lower case, as produced by `hexdigest`). -/
def hex_digit (n : Nat) : Char :=
  "0123456789abcdef".toList.getD n '0'

/-- JSON string escaping as performed by `json.dumps(..., ensure_ascii=False)`:
quote and backslash are escaped, control characters use the two-character
escapes where they exist and `\u00XX` otherwise, all other characters pass
through verbatim. -/
def json_escape_char (c : Char) : List Char :=
  if c = '"' then ['\\', '"']
  else if c = '\\' then ['\\', '\\']
  else if c = '\n' then ['\\', 'n']
  else if c = '\r' then ['\\', 'r']
  else if c = '\t' then ['\\', 't']
  else if c = Char.ofNat 8 then ['\\', 'b']
  else if c = Char.ofNat 12 then ['\\', 'f']
  else if c.toNat < 32 then
    ['\\', 'u', '0', '0', hex_digit (c.toNat / 16), hex_digit (c.toNat % 16)]
  else [c]

/-- A JSON string literal. -/
def json_quote (s : String) : String :=
  "\"" ++ String.mk (s.toList.map json_escape_char).flatten ++ "\""

/-- A JSON boolean literal. -/
def json_of_bool (b : Bool) : String := if b then "true" else "false"

/-- One item entry serialized with `sort_keys=True` and the default
separators: present keys in the alphabetical order
`chk`, `n`, `r`, `req`, `t`, `vh`. -/
def json_of_entry (e : FingerprintEntry) : String :=
  let fields : List (Option (String × String)) :=
    [ e.chk.map (fun b => ("chk", json_of_bool b))
    , some ("n", json_quote e.n)
    , some ("r", json_quote e.r)
    , some ("req", json_of_bool e.req)
    , some ("t", json_quote e.t)
    , e.vh.map (fun v => ("vh", json_quote v)) ]
  "\x7b"
    ++ String.intercalate ", "
        ((fields.filterMap id).map (fun kv => json_quote kv.1 ++ ": " ++ kv.2))
    ++ "\x7d"

/-- `json.dumps({"url": ..., "items": [...]}, ensure_ascii=False,
sort_keys=True)` (line 3047): sorted keys put `items` before `url`. -/
def json_of_payload (payload : String × List FingerprintEntry) : String :=
  "\x7b\"items\": ["
    ++ String.intercalate ", " (payload.2.map json_of_entry)
    ++ "], \"url\": " ++ json_quote payload.1 ++ "\x7d"

/-- UTF-8 encoding of one code point (`.encode("utf-8")`, line 3048). -/
def utf8_bytes_of_char (c : Char) : List Nat :=
  let n := c.toNat
  if n < 128 then [n]
  else if n < 2048 then [192 + n / 64, 128 + n % 64]
  else if n < 65536 then [224 + n / 4096, 128 + (n / 64) % 64, 128 + n % 64]
  else [240 + n / 262144, 128 + (n / 4096) % 64, 128 + (n / 64) % 64, 128 + n % 64]

/-- UTF-8 encoding of a string as a byte list. -/
def utf8_bytes (s : String) : List Nat :=
  (s.toList.map utf8_bytes_of_char).flatten

/-- Truncation to a 32-bit word. -/
def w32 (n : Nat) : Nat := n % 4294967296

/-- 32-bit left rotation. -/
def rotl32 (b n : Nat) : Nat := w32 ((n <<< b) ||| (n >>> (32 - b)))

/-- The SHA-1 round function. -/
def sha1_f (t b c d : Nat) : Nat :=
  if t < 20 then (b &&& c) ||| ((b ^^^ 4294967295) &&& d)
  else if t < 40 then b ^^^ c ^^^ d
  else if t < 60 then (b &&& c) ||| (b &&& d) ||| (c &&& d)
  else b ^^^ c ^^^ d

/-- The SHA-1 round constants. -/
def sha1_k (t : Nat) : Nat :=
  if t < 20 then 1518500249
  else if t < 40 then 1859775393
  else if t < 60 then 2400959708
  else 3395469782

/-- Big-endian byte decomposition of a number into `k` bytes. -/
def be_bytes (k n : Nat) : List Nat :=
  (List.range k).map (fun i => (n >>> (8 * (k - 1 - i))) &&& 255)

/-- SHA-1 message padding: `0x80`, zeros to 56 mod 64, then the bit length
as 8 big-endian bytes. -/
def sha1_pad (msg : List Nat) : List Nat :=
  let zeros := (56 + 64 - (msg.length + 1) % 64) % 64
  msg ++ [128] ++ List.replicate zeros 0 ++ be_bytes 8 (msg.length * 8)

/-- Split a byte list into 64-byte chunks. -/
def chunks64 : List Nat → List (List Nat)
  | [] => []
  | b :: rest => ((b :: rest).take 64) :: chunks64 ((b :: rest).drop 64)
termination_by l => l.length
decreasing_by
  simp only [List.length_drop, List.length_cons]
  omega

/-- A big-endian 32-bit word from four bytes. -/
def word_of_bytes (bs : List Nat) : Nat :=
  bs.foldl (fun acc b => acc * 256 + b) 0

/-- The sixteen initial words of a chunk. -/
def chunk_words (chunk : List Nat) : List Nat :=
  (List.range 16).map (fun i => word_of_bytes ((chunk.drop (4 * i)).take 4))

/-- Message-schedule extension from 16 to 80 words. -/
def sha1_extend_words (ws : List Nat) : List Nat :=
  (List.range 64).foldl
    (fun acc _ =>
      let m := acc.length
      acc ++ [rotl32 1 ((acc.getD (m - 3) 0) ^^^ (acc.getD (m - 8) 0)
        ^^^ (acc.getD (m - 14) 0) ^^^ (acc.getD (m - 16) 0))])
    ws

/-- One SHA-1 compression round. -/
def sha1_round (st : Nat × Nat × Nat × Nat × Nat) (tw : Nat × Nat) :
    Nat × Nat × Nat × Nat × Nat :=
  let (a, b, c, d, e) := st
  let (t, wt) := tw
  (w32 (rotl32 5 a + sha1_f t b c d + e + sha1_k t + wt), a, rotl32 30 b, c, d)

/-- Processing of one 64-byte chunk. -/
def sha1_process_chunk (h : Nat × Nat × Nat × Nat × Nat) (chunk : List Nat) :
    Nat × Nat × Nat × Nat × Nat :=
  let ws := sha1_extend_words (chunk_words chunk)
  let (a, b, c, d, e) := ((List.range 80).zip ws).foldl sha1_round h
  let (h0, h1, h2, h3, h4) := h
  (w32 (h0 + a), w32 (h1 + b), w32 (h2 + c), w32 (h3 + d), w32 (h4 + e))

/-- The SHA-1 initialization vector. -/
def sha1_init : Nat × Nat × Nat × Nat × Nat :=
  (1732584193, 4023233417, 2562383102, 271733878, 3285377520)

/-- Eight-hex-digit rendering of a 32-bit word. -/
def to_hex32 (n : Nat) : String :=
  String.mk ((List.range 8).map (fun i => hex_digit ((n >>> (4 * (7 - i))) &&& 15)))

/-- `hashlib.sha1(...).hexdigest()` over a byte list. -/
def sha1_hexdigest (msg : List Nat) : String :=
  let (h0, h1, h2, h3, h4) :=
    (chunks64 (sha1_pad msg)).foldl sha1_process_chunk sha1_init
  to_hex32 h0 ++ to_hex32 h1 ++ to_hex32 h2 ++ to_hex32 h3 ++ to_hex32 h4

/-- `BrowserAgent._build_page_fingerprint`: the SHA-1 hex digest of the
serialized payload. -/
def build_page_fingerprint (current_url : String) (items : List SnapshotItem) :
    String :=
  sha1_hexdigest (utf8_bytes (json_of_payload (fingerprint_payload current_url items)))

/-- The observation of the C3 counterexample: a single required consent
checkbox. -/
def fragment_counterexample_items : List SnapshotItem :=
  [{ ref := "e1", role := "checkbox", name := "I agree to the privacy policy",
     nth := 0, input_type := some "checkbox", required := true,
     checked := some false }]

/-- A concrete unchecked consent checkbox. -/
def agree_unchecked_item : SnapshotItem :=
  { ref := "e1", role := "checkbox", name := "I agree", nth := 0,
    checked := some false }

/-- The same checkbox with the checked state flipped. -/
def agree_checked_item : SnapshotItem :=
  { ref := "e1", role := "checkbox", name := "I agree", nth := 0,
    checked := some true }

/-- A concrete e-mail input with a value hint. -/
def email_value_item : SnapshotItem :=
  { ref := "e1", role := "textbox", name := "Email", nth := 0,
    value_hint := "a@b.c" }

/-- The same input with a changed value hint. -/
def email_value_item_changed : SnapshotItem :=
  { ref := "e1", role := "textbox", name := "Email", nth := 0,
    value_hint := "new@b.c" }

/-!
## Theorems
-/

/-- C4: For every (scope, intent) key, the semantic loop-guard decision as a
function of the semantic failure count maps count 1 to "replan", count 2 to
"alternate", and every count ≥ 3 to "stop" — both for the module-level
`semantic_loop_guard_decision` and for the count mapping inside
`BrowserAgent._semantic_loop_guard_decision` (for any non-empty key). -/
theorem semantic_guard_decision_sequence :
    (semantic_loop_guard_decision 1 = "replan"
      ∧ semantic_loop_guard_decision 2 = "alternate"
      ∧ ∀ n : Int, 3 ≤ n → semantic_loop_guard_decision n = "stop")
    ∧ ∀ key : String, key ≠ "" →
        browser_semantic_loop_guard_decision key 1 = "replan"
        ∧ browser_semantic_loop_guard_decision key 2 = "alternate"
        ∧ ∀ n : Int, 3 ≤ n → browser_semantic_loop_guard_decision key n = "stop" := by
  refine ⟨⟨rfl, rfl, ?_⟩, ?_⟩
  · intro n hn
    unfold semantic_loop_guard_decision
    rw [if_neg (by omega), if_neg (by omega), if_pos hn]
  · intro key hkey
    refine ⟨?_, ?_, ?_⟩
    · unfold browser_semantic_loop_guard_decision
      rw [if_neg hkey]
      norm_num
    · unfold browser_semantic_loop_guard_decision
      rw [if_neg hkey]
      norm_num
    · intro n hn
      unfold browser_semantic_loop_guard_decision
      rw [if_neg hkey, if_neg (by omega), if_neg (by omega), if_pos hn]

/-- Witness for C4: the guard decisions at the concrete counts 1, 2 and 5 for
the concrete key "boards.example.test/company|progression::submit_apply". -/
theorem semantic_guard_decision_sequence_witness :
    semantic_loop_guard_decision 5 = "stop"
    ∧ browser_semantic_loop_guard_decision
        "boards.example.test/company|progression::submit_apply" 1 = "replan" := by
  refine ⟨semantic_guard_decision_sequence.1.2.2 5 (by decide), ?_⟩
  exact (semantic_guard_decision_sequence.2
    "boards.example.test/company|progression::submit_apply" (by decide)).1

/-- C7: every evidence text whose lower-cased form contains
"application submitted" is classified `success_confirmed`, regardless of the
other arguments — in particular even when keywords of the external-blocked,
transient-network or validation categories are present in the same text,
because the completion check is the first branch of
`classify_submission_outcome`. -/
theorem classify_success_confirmed_precedence
    (evidence_text : String) (action_success : Bool)
    (progression_block_reason : Option String)
    (progression_block_snippets : List String)
    (h : str_contains (py_lower evidence_text) "application submitted" = true) :
    (classify_submission_outcome evidence_text action_success
        progression_block_reason progression_block_snippets).classification
      = .success_confirmed := by
  have hlooks : looks_like_completion_text (py_lower evidence_text) = true := by
    unfold looks_like_completion_text success_indicators
    simp only [List.any_cons, List.any_nil, Bool.or_eq_true]
    tauto
  unfold classify_submission_outcome
  simp only [hlooks, if_true]

/-- Witness for C7: a concrete evidence text that contains
"application submitted" together with external-blocked ("rate limit",
"risk"), transient ("server error") and validation ("is required") keywords
is still classified `success_confirmed`. -/
theorem classify_success_confirmed_precedence_witness :
    str_contains
      (py_lower "Application submitted! (ignore: rate limit risk, server error, a field is required)")
      "application submitted" = true
    ∧ (classify_submission_outcome
        "Application submitted! (ignore: rate limit risk, server error, a field is required)"
        false (some "blocked") ["snippet"]).classification = .success_confirmed := by
  refine ⟨by decide, ?_⟩
  exact classify_success_confirmed_precedence
    "Application submitted! (ignore: rate limit risk, server error, a field is required)"
    false (some "blocked") ["snippet"] (by decide)

/-- C2: with no structural evidence (zero invalid fields, zero empty required
fields, zero error containers) the gate allows the progression action —
returns `None` — regardless of the global keyword hit count (the call uses
the default `llm_confirms_context_error=False`, i.e. no semantic
confirmation; a page-wide keyword alone never blocks automatically). -/
theorem gate_allows_without_structural_evidence (evidence : ProgressionEvidence)
    (h_invalid : evidence.invalid_field_count = 0)
    (h_required : evidence.required_empty_count = 0)
    (h_container : evidence.error_container_hits = 0) :
    (evaluate_progression_block_reason evidence false).2 = none := by
  unfold evaluate_progression_block_reason
  rw [if_neg (by omega), if_neg (by omega), if_neg (by simp [h_container])]
  rw [if_neg (by simp)]

/-- Witness for C2: a concrete evidence dictionary with `global_error_keyword_hits = 7`
(and red-text hits) but no structural signal is allowed. -/
theorem gate_allows_without_structural_evidence_witness :
    (evaluate_progression_block_reason
      { invalid_field_count := 0
        required_empty_count := 0
        red_error_hits := 1
        error_container_hits := 0
        local_error_keyword_hits := 2
        global_error_keyword_hits := 7
        submit_candidates := []
        invalid_field_samples := []
        file_upload_state_samples := []
        required_empty_samples := [] } false).2 = none := by
  exact gate_allows_without_structural_evidence _ rfl rfl rfl

/-- C10: on every execution path the gate records its decision into the
evidence dictionary, and the recorded decision agrees with the returned
value: `gate_decision` is set to "allow" exactly when the function returns
`None` and to "block" exactly when it returns a block reason. -/
theorem gate_decision_recorded_consistently (evidence : ProgressionEvidence)
    (llm_confirms_context_error : Bool) :
    ((evaluate_progression_block_reason evidence llm_confirms_context_error).2 = none
      ∧ (evaluate_progression_block_reason evidence llm_confirms_context_error).1.gate_decision
          = some "allow")
    ∨ ((evaluate_progression_block_reason evidence llm_confirms_context_error).2 ≠ none
      ∧ (evaluate_progression_block_reason evidence llm_confirms_context_error).1.gate_decision
          = some "block") := by
  unfold evaluate_progression_block_reason
  rcases em (evidence.invalid_field_count > 0) with h1 | h1
  · rcases Bool.eq_false_or_eq_true (gate_file_allow_condition evidence) with h2 | h2
    · left
      simp [h1, h2]
    · rcases Bool.eq_false_or_eq_true
        (gate_single_invalid_allow_condition evidence) with h3 | h3
      · left
        simp [h1, h2, h3]
      · right
        simp [h1, h2, h3]
  · rcases em (evidence.required_empty_count > 0) with h2 | h2
    · right
      simp [h1, h2]
    · rcases em (evidence.error_container_hits > 0
        ∧ (evidence.red_error_hits > 0 ∨ evidence.local_error_keyword_hits > 0)) with h3 | h3
      · right
        simp [h1, h2, h3]
      · rcases em (evidence.global_error_keyword_hits > 0
          ∧ llm_confirms_context_error = true) with h4 | h4
        · right
          simp [h1, h2, h3, h4]
        · left
          simp [h1, h2, h3, h4]

/-- C6, amended only in presentation: the file-input special case of the
gate.  If exactly one invalid field is reported, every invalid sample is a
file input, every required-empty sample is a file input (or there are no
required-empty fields), an enabled submit control exists and no other error
evidence exists, then: with an upload-ready signal the gate allows
(returns `None`); without one it blocks with the invalid-field reason. -/
theorem gate_file_input_upload_ready_special_case (evidence : ProgressionEvidence)
    (llm_confirms_context_error : Bool)
    (h_invalid : evidence.invalid_field_count = 1)
    (h_file : gate_all_invalid_are_file evidence = true)
    (h_required : evidence.required_empty_count ≤ 0
      ∨ gate_all_required_empty_are_file evidence = true)
    (h_submit : gate_has_enabled_submit evidence = true)
    (h_container : evidence.error_container_hits = 0)
    (h_red : evidence.red_error_hits = 0)
    (h_local : evidence.local_error_keyword_hits = 0) :
    (gate_has_upload_ready_signal evidence = true →
      (evaluate_progression_block_reason evidence llm_confirms_context_error).2 = none)
    ∧ (gate_has_upload_ready_signal evidence = false →
      (evaluate_progression_block_reason evidence llm_confirms_context_error).2
        = some "检测到 1 个无效字段（aria-invalid/:invalid）") := by
  constructor
  · intro h_ready
    have hc : gate_file_allow_condition evidence = true := by
      unfold gate_file_allow_condition
      rcases h_required with h | h <;>
        simp [h_file, h_ready, h_submit, h_container, h_red, h_local, h]
    unfold evaluate_progression_block_reason
    rw [if_pos (by omega), if_pos hc]
  · intro h_ready
    have hc : gate_file_allow_condition evidence = false := by
      unfold gate_file_allow_condition
      simp [h_ready]
    have hc2 : gate_single_invalid_allow_condition evidence = false := by
      unfold gate_single_invalid_allow_condition
      simp [h_file]
    unfold evaluate_progression_block_reason
    rw [if_pos (by omega), if_neg (by simp [hc]), if_neg (by simp [hc2]), h_invalid]
    rfl

/-- Witness for C6: the two concrete evidence dictionaries of the repository's
own test-suite scenario — one with `has_replace_text = true` (allowed) and the
same one with the upload-ready flags cleared (blocked). -/
theorem gate_file_input_upload_ready_special_case_witness :
    (evaluate_progression_block_reason
      { invalid_field_count := 1
        required_empty_count := 1
        red_error_hits := 0
        error_container_hits := 0
        local_error_keyword_hits := 0
        global_error_keyword_hits := 0
        submit_candidates :=
          [{ text := "Submit Application", type := "", disabled := false, aria_disabled := "" }]
        invalid_field_samples := [{ type := "file" }]
        file_upload_state_samples :=
          [{ has_replace_text := true, has_uploaded_file_name := false }]
        required_empty_samples := [{ type := "file" }] } false).2 = none
    ∧ (evaluate_progression_block_reason
      { invalid_field_count := 1
        required_empty_count := 1
        red_error_hits := 0
        error_container_hits := 0
        local_error_keyword_hits := 0
        global_error_keyword_hits := 0
        submit_candidates :=
          [{ text := "Submit Application", type := "", disabled := false, aria_disabled := "" }]
        invalid_field_samples := [{ type := "file" }]
        file_upload_state_samples :=
          [{ has_replace_text := false, has_uploaded_file_name := false }]
        required_empty_samples := [{ type := "file" }] } false).2
      = some "检测到 1 个无效字段（aria-invalid/:invalid）" := by
  constructor
  · exact (gate_file_input_upload_ready_special_case _ false rfl (by decide)
      (Or.inr (by decide)) (by decide) rfl rfl rfl).1 (by decide)
  · exact (gate_file_input_upload_ready_special_case _ false rfl (by decide)
      (Or.inr (by decide)) (by decide) rfl rfl rfl).2 (by decide)

/-- C9: a cached `continue` AgentState for the current fingerprint is
replayed without a new model call exactly when (a) its action does not
target a toggle-like control (checkbox / radio / switch role, or an element
carrying a checked / pressed state), (b) the exact action key has zero
recorded failures, and (c) that cached action has not already been replayed
once; in every other case the decision is `false` and the source makes a
fresh planner call.  In addition, once a replay is accepted the use-count
increment makes an immediately repeated replay of the same cached action
impossible (given the source invariant that use counts are non-negative). -/
theorem cache_replay_only_for_safe_unfailed_actions
    (cached_state : Option AgentState) (snapshot_map : String → Option SnapshotItem)
    (action_fail_counts action_cache_use_counts : String → Int)
    (page_fingerprint : String) :
    (cache_replay_accepted cached_state snapshot_map action_fail_counts
        action_cache_use_counts page_fingerprint = true
      ↔ ∃ st ca, cached_state = some st ∧ st.next_action = some ca
          ∧ st.status = AgentStatus.continue_status
          ∧ is_toggle_replay ca snapshot_map = false
          ∧ action_fail_counts (action_fail_key page_fingerprint ca) = 0
          ∧ action_cache_use_counts (action_fail_key page_fingerprint ca) < 1)
    ∧ ∀ st ca, cached_state = some st → st.next_action = some ca →
        0 ≤ action_cache_use_counts (action_fail_key page_fingerprint ca) →
        cache_replay_accepted cached_state snapshot_map action_fail_counts
          (cache_replay_use_increment action_cache_use_counts page_fingerprint ca)
          page_fingerprint = false := by
  constructor
  · cases cached_state with
    | none => simp [cache_replay_accepted]
    | some st =>
      cases hna : st.next_action with
      | none => simp [cache_replay_accepted, hna]
      | some ca =>
        simp only [cache_replay_accepted, hna, Bool.and_eq_true, decide_eq_true_eq,
          Bool.not_eq_true', Option.some.injEq]
        constructor
        · rintro ⟨⟨⟨hstat, htog⟩, hfail⟩, huse⟩
          exact ⟨st, ca, rfl, hna, hstat, htog, hfail, huse⟩
        · rintro ⟨st', ca', hst, hca, hstat, htog, hfail, huse⟩
          cases hst
          rw [hna] at hca
          cases hca
          exact ⟨⟨⟨hstat, htog⟩, hfail⟩, huse⟩
  · rintro st ca rfl hca hnonneg
    have hkey : ¬ (action_cache_use_counts (action_fail_key page_fingerprint ca) + 1 < 1) := by
      omega
    simp [cache_replay_accepted, cache_replay_use_increment, update_count, hca, hkey]

/-- Witness for C9: a concrete cached click on a plain button with clean
counters is replayed, and after the use-count increment the same replay is
rejected. -/
theorem cache_replay_only_for_safe_unfailed_actions_witness :
    cache_replay_accepted
        (some { status := AgentStatus.continue_status
                summary := "stable page"
                next_action := some { action := "click", ref := some "e1" } })
        (fun r => if r = "e1" then
            some { ref := "e1", role := "button", name := "Next", nth := 0 }
          else none)
        (fun _ => 0) (fun _ => 0) "fp1" = true
    ∧ cache_replay_accepted
        (some { status := AgentStatus.continue_status
                summary := "stable page"
                next_action := some { action := "click", ref := some "e1" } })
        (fun r => if r = "e1" then
            some { ref := "e1", role := "button", name := "Next", nth := 0 }
          else none)
        (fun _ => 0)
        (cache_replay_use_increment (fun _ => 0) "fp1"
          { action := "click", ref := some "e1" }) "fp1" = false := by
  constructor
  · exact (cache_replay_only_for_safe_unfailed_actions _ _ _ _ _).1.mpr
      ⟨_, _, rfl, rfl, rfl, by decide, rfl, by decide⟩
  · exact (cache_replay_only_for_safe_unfailed_actions _ _ _ _ _).2 _ _ rfl rfl
      (by decide)

/-- Counterexample to C5: a page refresh does *not* clear the submission
retry counter.  In the concrete state with
`submissionRetryCount[key] = 2` and no refresh attempts used, a successful
`_do_refresh` leaves that counter at 2 (the claim says every one of the
four counters is cleared wholesale on refresh). -/
theorem refresh_does_not_clear_submission_retry_counterexample :
    (do_refresh pending_retry_counter_state true).2 = true
    ∧ (do_refresh pending_retry_counter_state true).1.submission_retry_counts
        "boards.example.test/company|progression::submit_apply" = 2
    ∧ (2 : Int) ≠ 0 := by
  refine ⟨rfl, rfl, by decide⟩

/-- C5, amended: a successful action of a key resets the
`actionFailCount` and `repeatedSkipCount` entries of that exact action key
and the `semanticFailCount` entry of its (non-empty) semantic key to zero,
and a performed (non-exhausted, successful-reload) page refresh clears the
`actionFailCount`, `repeatedSkipCount` and `semanticFailCount` dictionaries
wholesale — but `submissionRetryCount` is excluded: it is neither reset by a
successful action nor cleared by a page refresh. -/
theorem counters_reset_on_success_and_cleared_on_refresh
    (st : LoopCounterState) (page_fingerprint : String) (action : AgentAction)
    (semantic_key : String) :
    ((record_action_result st page_fingerprint action semantic_key true).action_fail_counts
        (action_fail_key page_fingerprint action) = 0
      ∧ (record_action_result st page_fingerprint action semantic_key true).repeated_skip_counts
          (action_fail_key page_fingerprint action) = 0
      ∧ (semantic_key ≠ "" →
          (record_action_result st page_fingerprint action semantic_key true).semantic_fail_counts
            semantic_key = 0)
      ∧ (record_action_result st page_fingerprint action semantic_key true).submission_retry_counts
          = st.submission_retry_counts)
    ∧ (st.refresh_attempts < max_refresh_attempts →
        (∀ k, (do_refresh st true).1.action_fail_counts k = 0
          ∧ (do_refresh st true).1.repeated_skip_counts k = 0
          ∧ (do_refresh st true).1.semantic_fail_counts k = 0
          ∧ (do_refresh st true).1.action_cache_use_counts k = 0)
        ∧ (do_refresh st true).1.submission_retry_counts
            = st.submission_retry_counts) := by
  constructor
  · refine ⟨?_, ?_, ?_, ?_⟩
    · simp [record_action_result, update_count]
    · simp [record_action_result, update_count]
    · intro hk
      simp [record_action_result, update_count, hk]
    · simp [record_action_result]
  · intro hlt
    have hcap : ¬ (st.refresh_attempts ≥ max_refresh_attempts) := by omega
    constructor
    · intro k
      refine ⟨?_, ?_, ?_, ?_⟩ <;> simp [do_refresh, hcap]
    · simp [do_refresh, hcap]

/-- Witness for C5 (amended): in the concrete state above, a successful
click resets its action-fail entry and the refresh clears the semantic
counters while leaving the submission-retry counter untouched. -/
theorem counters_reset_on_success_and_cleared_on_refresh_witness :
    ((record_action_result pending_retry_counter_state "fp1"
        { action := "click", ref := some "e1" }
        "boards.example.test/company|progression::submit_apply" true).action_fail_counts
      (action_fail_key "fp1" { action := "click", ref := some "e1" }) = 0)
    ∧ (do_refresh pending_retry_counter_state true).1.semantic_fail_counts "any" = 0
    ∧ (do_refresh pending_retry_counter_state true).1.submission_retry_counts
        = pending_retry_counter_state.submission_retry_counts := by
  refine ⟨?_, ?_, ?_⟩
  · exact (counters_reset_on_success_and_cleared_on_refresh
      pending_retry_counter_state "fp1" { action := "click", ref := some "e1" }
      "boards.example.test/company|progression::submit_apply").1.1
  · exact (((counters_reset_on_success_and_cleared_on_refresh
      pending_retry_counter_state "fp1" { action := "click", ref := some "e1" }
      "boards.example.test/company|progression::submit_apply").2 (by decide)).1 "any").2.2.1
  · exact ((counters_reset_on_success_and_cleared_on_refresh
      pending_retry_counter_state "fp1" { action := "click", ref := some "e1" }
      "boards.example.test/company|progression::submit_apply").2 (by decide)).2

/-- C8: starting from a zero retry count for a semantic key, three
consecutive submission outcomes classified `external_blocked` or
`transient_network` for that key make `_handle_submission_outcome` return
blocked (`success = false`) with `should_stop = false` and the humanized
retry pacing applied on the first and second call, and blocked with
`should_stop = true` (no further pacing) on the third call. -/
theorem submission_retry_three_strikes
    (st : SubmissionHandlerState) (semantic_key : String)
    (t1 t2 t3 : String) (s1 s2 s3 : Bool)
    (br1 br2 br3 : Option String) (sn1 sn2 sn3 : List String)
    (h1 : (classify_submission_outcome t1 s1 br1 sn1).classification
            = .external_blocked
        ∨ (classify_submission_outcome t1 s1 br1 sn1).classification
            = .transient_network)
    (h2 : (classify_submission_outcome t2 s2 br2 sn2).classification
            = .external_blocked
        ∨ (classify_submission_outcome t2 s2 br2 sn2).classification
            = .transient_network)
    (h3 : (classify_submission_outcome t3 s3 br3 sn3).classification
            = .external_blocked
        ∨ (classify_submission_outcome t3 s3 br3 sn3).classification
            = .transient_network)
    (hcount : st.submission_retry_counts
        (normalized_submission_retry_key semantic_key) = 0) :
    ((handle_submission_outcome st t1 s1 br1 sn1 semantic_key).success = false
      ∧ (handle_submission_outcome st t1 s1 br1 sn1 semantic_key).should_stop = false
      ∧ (handle_submission_outcome st t1 s1 br1 sn1 semantic_key).pacing_applied = true)
    ∧ ((handle_submission_outcome
          (handle_submission_outcome st t1 s1 br1 sn1 semantic_key).state
          t2 s2 br2 sn2 semantic_key).success = false
      ∧ (handle_submission_outcome
          (handle_submission_outcome st t1 s1 br1 sn1 semantic_key).state
          t2 s2 br2 sn2 semantic_key).should_stop = false
      ∧ (handle_submission_outcome
          (handle_submission_outcome st t1 s1 br1 sn1 semantic_key).state
          t2 s2 br2 sn2 semantic_key).pacing_applied = true)
    ∧ ((handle_submission_outcome
          (handle_submission_outcome
            (handle_submission_outcome st t1 s1 br1 sn1 semantic_key).state
            t2 s2 br2 sn2 semantic_key).state
          t3 s3 br3 sn3 semantic_key).success = false
      ∧ (handle_submission_outcome
          (handle_submission_outcome
            (handle_submission_outcome st t1 s1 br1 sn1 semantic_key).state
            t2 s2 br2 sn2 semantic_key).state
          t3 s3 br3 sn3 semantic_key).should_stop = true) := by
  rcases h1 with h1 | h1 <;> rcases h2 with h2 | h2 <;> rcases h3 with h3 | h3 <;>
    simp [handle_submission_outcome, h1, h2, h3, hcount, update_count,
      submission_retry_limit]

/-- Witness for C8: three consecutive "flagged as possible spam" outcomes on
the key "k" starting from a fresh state; the third call stops, the first
applies the pacing. -/
theorem submission_retry_three_strikes_witness :
    (handle_submission_outcome
        ({ submission_retry_counts := fun _ => 0
           last_validation_signature := ""
           validation_repeat_count := 0
           retry_count_hint := 0 } : SubmissionHandlerState)
        "the request was flagged as possible spam" true none [] "k").pacing_applied = true
    ∧ (handle_submission_outcome
        (handle_submission_outcome
          (handle_submission_outcome
            ({ submission_retry_counts := fun _ => 0
               last_validation_signature := ""
               validation_repeat_count := 0
               retry_count_hint := 0 } : SubmissionHandlerState)
            "the request was flagged as possible spam" true none [] "k").state
          "the request was flagged as possible spam" true none [] "k").state
        "the request was flagged as possible spam" true none [] "k").should_stop = true := by
  constructor
  · exact (submission_retry_three_strikes _ "k"
      "the request was flagged as possible spam"
      "the request was flagged as possible spam"
      "the request was flagged as possible spam"
      true true true none none none [] [] []
      (Or.inl (by decide)) (Or.inl (by decide)) (Or.inl (by decide)) rfl).1.2.2
  · exact (submission_retry_three_strikes _ "k"
      "the request was flagged as possible spam"
      "the request was flagged as possible spam"
      "the request was flagged as possible spam"
      true true true none none none [] [] []
      (Or.inl (by decide)) (Or.inl (by decide)) (Or.inl (by decide)) rfl).2.2.2

/-- Counterexample to C1: a non-pre-navigation run terminates with overall
success even though a submit control is still visible — the verification at
lines 3773–3782 requires absence of a visible submit control only when no
success text was found, so success text plus a visible Submit button passes.
The claim's "and no still-visible submit control" conjunct therefore fails. -/
theorem run_succeeds_despite_visible_submit_counterexample :
    run_agent_loop false [visible_submit_done_cycle] = true
    ∧ visible_submit_done_cycle.submit_visible = true
    ∧ (verify_completion visible_submit_done_cycle.body_text
        visible_submit_done_cycle.submit_visible).1 = true := by
  refine ⟨by decide, rfl, by decide⟩

/-- C1, amended: in non-pre-navigation mode the loop returns overall success
only at a step whose planner state is `done` and whose independent
verification passes; the verification passes only when success-confirmation
text is present and no error indicator is present on the page (a
still-visible submit control prevents success only in the absence of
success text); and when the verification fails on a `done` state the loop
continues instead of terminating successfully. -/
theorem run_success_requires_verified_done (trace : List RunCycle) :
    (run_agent_loop false trace = true →
      ∃ c ∈ trace, c.state.status = AgentStatus.done
        ∧ (verify_completion c.body_text c.submit_visible).1 = true)
    ∧ (∀ body submit, (verify_completion body submit).1 = true →
        verification_has_success body = true ∧ verification_has_error body = false)
    ∧ (∀ c rest, c.state.status = AgentStatus.done →
        (verify_completion c.body_text c.submit_visible).1 = false →
        run_agent_loop false (c :: rest) = run_agent_loop false rest) := by
  refine ⟨?_, ?_, ?_⟩
  · induction trace with
    | nil => simp [run_agent_loop]
    | cons c rest ih =>
      intro hrun
      unfold run_agent_loop at hrun
      rcases hstat : c.state.status with _ | _ | _ | _ <;> rw [hstat] at hrun
      · rcases hact : c.state.next_action with _ | a <;> rw [hact] at hrun
        · rcases ih hrun with ⟨c', hmem, hdone, hver⟩
          exact ⟨c', List.mem_cons_of_mem _ hmem, hdone, hver⟩
        · rcases hph : c.action_phase with _ | _ <;> rw [hph] at hrun
          · rcases ih hrun with ⟨c', hmem, hdone, hver⟩
            exact ⟨c', List.mem_cons_of_mem _ hmem, hdone, hver⟩
          · exact absurd hrun (by simp)
      · rw [if_neg (by simp)] at hrun
        by_cases hver : (verify_completion c.body_text c.submit_visible).1 = true
        · exact ⟨c, List.mem_cons_self _ _, hstat, hver⟩
        · rw [if_neg (by simpa using hver)] at hrun
          rcases ih hrun with ⟨c', hmem, hdone, hver'⟩
          exact ⟨c', List.mem_cons_of_mem _ hmem, hdone, hver'⟩
      · exact absurd hrun (by simp)
      · rcases ih hrun with ⟨c', hmem, hdone, hver⟩
        exact ⟨c', List.mem_cons_of_mem _ hmem, hdone, hver⟩
  · intro body submit hver
    unfold verify_completion at hver
    split_ifs at hver with hsub herr hsucc hnone
    refine ⟨(Bool.and_eq_true _ _ |>.mp hsucc).1, ?_⟩
    simpa using (Bool.and_eq_true _ _ |>.mp hsucc).2
  · intro c rest hdone hver
    conv_lhs => rw [run_agent_loop]
    rw [hdone]
    simp [hver]

/-- Witness for C1 (amended): a concrete failed-verification `done` cycle
(an extension "Autofill complete" page with a visible submit button) makes
the loop fall through to the rest of the trace, and a concrete passing
verification implies success text with no error indicator on the page. -/
theorem run_success_requires_verified_done_witness :
    run_agent_loop false
      [{ state := { status := AgentStatus.done, summary := "done?" }
         body_text := "Autofill complete! Please review."
         submit_visible := true
         action_phase := ActionPhaseOutcome.loop_again }]
      = run_agent_loop false []
    ∧ verification_has_success
        "Application submitted. You can review your answers below." = true := by
  constructor
  · exact (run_success_requires_verified_done []).2.2
      { state := { status := AgentStatus.done, summary := "done?" }
        body_text := "Autofill complete! Please review."
        submit_visible := true
        action_phase := ActionPhaseOutcome.loop_again }
      [] rfl (by decide)
  · exact ((run_success_requires_verified_done []).2.1
      "Application submitted. You can review your answers below." true (by decide)).1

/-- Helper for C3: changing one item among the first 40 (in ref order) to an
item with a different fingerprint entry changes the serialized payload. -/
theorem fingerprint_payload_entry_change (url : String)
    (pre post : List SnapshotItem) (a a' : SnapshotItem)
    (hlen : pre.length < 40)
    (hs : (pre ++ a :: post).Pairwise (fun x y => x.ref ≤ y.ref))
    (hs' : (pre ++ a' :: post).Pairwise (fun x y => x.ref ≤ y.ref))
    (hne : fingerprint_entry_of_item a ≠ fingerprint_entry_of_item a') :
    fingerprint_payload url (pre ++ a :: post)
      ≠ fingerprint_payload url (pre ++ a' :: post) := by
  have hsort : sort_items_by_ref (pre ++ a :: post) = pre ++ a :: post := by
    apply List.mergeSort_of_sorted
    exact hs.imp (fun h => by simpa using h)
  have hsort' : sort_items_by_ref (pre ++ a' :: post) = pre ++ a' :: post := by
    apply List.mergeSort_of_sorted
    exact hs'.imp (fun h => by simpa using h)
  intro heq
  have h2 := congrArg Prod.snd heq
  simp only [fingerprint_payload] at h2
  rw [hsort, hsort'] at h2
  obtain ⟨k, hk⟩ : ∃ k, 40 - pre.length = k + 1 := ⟨40 - pre.length - 1, by omega⟩
  rw [List.take_append_eq_append_take, List.take_append_eq_append_take,
    List.take_of_length_le (by omega), hk, List.take_succ_cons,
    List.take_succ_cons, List.map_append, List.map_append, List.map_cons,
    List.map_cons] at h2
  have h3 := List.append_cancel_left h2
  injection h3 with h4 h5
  exact hne h4

/-- Counterexample to C3: two observations with identical elements whose
URLs differ (only in the fragment) produce *identical* fingerprints,
because `_build_page_fingerprint` hashes `current_url.split("#")[0]`
(line 3046).  The claim's "…or the URL, the fingerprints differ" is
therefore false as stated. -/
theorem fingerprint_equal_despite_url_change_counterexample :
    "https://jobs.example.test/apply#step-1"
      ≠ "https://jobs.example.test/apply#step-2"
    ∧ build_page_fingerprint "https://jobs.example.test/apply#step-1"
        fragment_counterexample_items
      = build_page_fingerprint "https://jobs.example.test/apply#step-2"
        fragment_counterexample_items := by
  constructor
  · decide
  · unfold build_page_fingerprint fingerprint_payload
    rw [show strip_url_fragment "https://jobs.example.test/apply#step-1"
        = strip_url_fragment "https://jobs.example.test/apply#step-2" from by decide]

/-- C3, amended: (i) identical URL and identical element descriptor lists
yield identical fingerprints; and for the sensitivity direction, stated of
the serialized payload fed to SHA-1 (fingerprints then differ unless SHA-1
collides): (ii) URLs that differ outside their fragment give different
payloads; (iii) flipping the checked state of one item among the first 40
(in ref order) gives different payloads; (iv) changing the value hint of
one such item gives different payloads.  The restrictions to the first 40
items and to non-fragment URL changes are forced by the source: items
beyond the 40-item cap and URL fragments are not hashed. -/
theorem page_fingerprint_invariants :
    (∀ url₁ url₂ items₁ items₂, url₁ = url₂ → items₁ = items₂ →
      build_page_fingerprint url₁ items₁ = build_page_fingerprint url₂ items₂)
    ∧ (∀ url₁ url₂ items, strip_url_fragment url₁ ≠ strip_url_fragment url₂ →
        fingerprint_payload url₁ items ≠ fingerprint_payload url₂ items)
    ∧ (∀ url pre post (a a' : SnapshotItem) (b b' : Bool),
        pre.length < 40 →
        (pre ++ a :: post).Pairwise (fun x y => x.ref ≤ y.ref) →
        (pre ++ a' :: post).Pairwise (fun x y => x.ref ≤ y.ref) →
        a.checked = some b → a' = { a with checked := some b' } → b ≠ b' →
        fingerprint_payload url (pre ++ a :: post)
          ≠ fingerprint_payload url (pre ++ a' :: post))
    ∧ (∀ url pre post (a a' : SnapshotItem) (v' : String),
        pre.length < 40 →
        (pre ++ a :: post).Pairwise (fun x y => x.ref ≤ y.ref) →
        (pre ++ a' :: post).Pairwise (fun x y => x.ref ≤ y.ref) →
        a' = { a with value_hint := v' } → a.value_hint ≠ v' →
        fingerprint_payload url (pre ++ a :: post)
          ≠ fingerprint_payload url (pre ++ a' :: post)) := by
  refine ⟨?_, ?_, ?_, ?_⟩
  · intro url₁ url₂ items₁ items₂ hu hi
    rw [hu, hi]
  · intro url₁ url₂ items hne heq
    exact hne (congrArg Prod.fst heq)
  · intro url pre post a a' b b' hlen hs hs' hchk ha' hbb
    apply fingerprint_payload_entry_change url pre post a a' hlen hs hs'
    intro h
    have := congrArg FingerprintEntry.chk h
    rw [ha'] at this
    simp only [fingerprint_entry_of_item, hchk] at this
    exact hbb (Option.some.inj this)
  · intro url pre post a a' v' hlen hs hs' ha' hv heq
    apply fingerprint_payload_entry_change url pre post a a' hlen hs hs' ?_ heq
    intro h
    have := congrArg FingerprintEntry.vh h
    rw [ha'] at this
    simp only [fingerprint_entry_of_item] at this
    by_cases h1 : a.value_hint = ""
    · rw [if_pos h1] at this
      by_cases h2 : v' = ""
      · exact hv (h1.trans h2.symm)
      · rw [if_neg h2] at this
        exact Option.noConfusion this
    · rw [if_neg h1] at this
      by_cases h2 : v' = ""
      · rw [if_pos h2] at this
        exact Option.noConfusion this
      · rw [if_neg h2] at this
        exact hv (Option.some.inj this)

/-- Witness for C3 (amended): determinism on a concrete observation, and
payload sensitivity at concrete single-checkbox / single-input
observations (checked flip, value-hint change) plus a true URL change. -/
theorem page_fingerprint_invariants_witness :
    build_page_fingerprint "https://jobs.example.test/apply"
        fragment_counterexample_items
      = build_page_fingerprint "https://jobs.example.test/apply"
        fragment_counterexample_items
    ∧ fingerprint_payload "https://jobs.example.test/apply"
        fragment_counterexample_items
      ≠ fingerprint_payload "https://jobs.example.test/postings"
        fragment_counterexample_items
    ∧ fingerprint_payload "https://jobs.example.test/apply"
        ([] ++ agree_unchecked_item :: [])
      ≠ fingerprint_payload "https://jobs.example.test/apply"
        ([] ++ agree_checked_item :: [])
    ∧ fingerprint_payload "https://jobs.example.test/apply"
        ([] ++ email_value_item :: [])
      ≠ fingerprint_payload "https://jobs.example.test/apply"
        ([] ++ email_value_item_changed :: []) := by
  refine ⟨?_, ?_, ?_, ?_⟩
  · exact page_fingerprint_invariants.1 _ _ _ _ rfl rfl
  · exact page_fingerprint_invariants.2.1 _ _ _ (by decide)
  · exact page_fingerprint_invariants.2.2.1 "https://jobs.example.test/apply"
      [] [] agree_unchecked_item agree_checked_item false true (by decide)
      (by decide) (by decide) rfl rfl (by decide)
  · exact page_fingerprint_invariants.2.2.2 "https://jobs.example.test/apply"
      [] [] email_value_item email_value_item_changed "new@b.c" (by decide)
      (by decide) (by decide) rfl (by decide)
